import Mathlib

/-!
Verification of the live game-scoring engine of the ulti-stats repository.

The definitions below are a shallow embedding of the TypeScript source:
  * the Firestore service layer (src/unnamed/part_001): `getEventsByGame`,
    `getEventsByTournament`, `createScoringEvent`, `deleteScoringEvent`,
    `createHistoryEntry`, `calculateStatsFromEvents`;
  * the MobX store (src/src/stores/GameStore.ts): `GameStore.addScoringEvent`,
    `GameStore.undoLastEvent`;
  * the scoring interaction flow (src/src/pages/GamesPage.tsx):
    `handleScorePoint`, the step-3 scorer candidate grid.

Modelling conventions:
  * Firestore timestamps are `Nat` (their `toMillis` value).
  * JavaScript `undefined`-able fields are `Option`; in particular
    `scorerPlayerId` is `Option String` because `handleScorePoint` passes
    `scorer?.playerId`, which is `undefined` when the scorer is skipped,
    even though the declared TS type is `string`.
  * Each asynchronous persistence primitive may fail; a `Bool` flag per
    primitive call (`true` = that call rejects) models the failure
    behaviour of the backend.  A failed call leaves the database
    unchanged; a failure aborts the rest of the composed operation while
    keeping whatever earlier calls already wrote.
  * `addDoc` id/timestamp assignment is modelled by explicit `newId`/`now`
    arguments.
-/

structure RosterPlayer where
  playerId : String
  playerName : String
  number : Nat
deriving DecidableEq, Repr

/-- The fields of a `Game` document used by the scoring engine
(src/src/types/index.ts, `Game`); display names, status and progress
metadata are omitted as no modelled operation reads them. -/
structure Game where
  id : String
  tournamentId : String
  homeTeamId : String
  awayTeamId : String
  homeRoster : List RosterPlayer
  awayRoster : List RosterPlayer
  homeScore : Nat
  awayScore : Nat
deriving DecidableEq, Repr

/-- `CreateScoringEventData` (src/src/types/index.ts): the event payload
built by `handleScorePoint`, before the persistence layer assigns
`id`/`createdAt`. -/
structure CreateScoringEventData where
  gameId : String
  tournamentId : String
  teamId : String
  scorerPlayerId : Option String
  scorerNumber : Option Nat
  scorerName : Option String
  assisterPlayerId : Option String
  assisterNumber : Option Nat
  assisterName : Option String
  homeScore : Nat
  awayScore : Nat
  scoredAt : Option Nat
deriving DecidableEq, Repr

/-- `ScoringEvent` (src/src/types/index.ts).  `createdAt` is `Option Nat`:
the document stored by `addDoc(withTimestamps(data))` carries it, but the
value `{ id: docRef.id, ...data }` returned by `createScoringEvent` (and
pushed into the store's in-memory array) does not. -/
structure ScoringEvent where
  id : String
  createdAt : Option Nat
  gameId : String
  tournamentId : String
  teamId : String
  scorerPlayerId : Option String
  scorerNumber : Option Nat
  scorerName : Option String
  assisterPlayerId : Option String
  assisterNumber : Option Nat
  assisterName : Option String
  homeScore : Nat
  awayScore : Nat
  scoredAt : Option Nat
deriving DecidableEq, Repr

/-- `{ id, ...data }` with the given `createdAt` (`some` for the stored
document, `none` for the value returned to the caller). -/
def mkScoringEvent (id : String) (createdAt : Option Nat)
    (d : CreateScoringEventData) : ScoringEvent :=
  { id := id, createdAt := createdAt, gameId := d.gameId,
    tournamentId := d.tournamentId, teamId := d.teamId,
    scorerPlayerId := d.scorerPlayerId, scorerNumber := d.scorerNumber,
    scorerName := d.scorerName, assisterPlayerId := d.assisterPlayerId,
    assisterNumber := d.assisterNumber, assisterName := d.assisterName,
    homeScore := d.homeScore, awayScore := d.awayScore,
    scoredAt := d.scoredAt }

/-- `PlayerStats` (src/src/types/index.ts).  At runtime the record seeded
from an event with a skipped scorer has `undefined` in `playerId` /
`playerName` / `playerNumber`, hence the `Option` fields. -/
structure PlayerStats where
  playerId : Option String
  playerName : Option String
  playerNumber : Option Nat
  teamId : String
  goals : Nat
  assists : Nat
deriving DecidableEq, Repr

/-- `a.createdAt.toMillis()` as used by the in-memory sort comparators;
documents read from storage always carry a timestamp. -/
def ScoringEvent.createdAtMillis (e : ScoringEvent) : Nat :=
  e.createdAt.getD 0

/-- Comparator `(a, b) => a.createdAt.toMillis() - b.createdAt.toMillis()`
of `getEventsByGame`/`getEventsByTournament`, as the ordering relation of
the (stable) in-memory sort. -/
def createdAtLe (a b : ScoringEvent) : Prop :=
  a.createdAtMillis ≤ b.createdAtMillis

instance : DecidableRel createdAtLe := fun _ _ => Nat.decLe _ _

instance : IsTotal ScoringEvent createdAtLe :=
  ⟨fun a b => Nat.le_total a.createdAtMillis b.createdAtMillis⟩

instance : IsTrans ScoringEvent createdAtLe :=
  ⟨fun _ _ _ h h' => Nat.le_trans h h'⟩

/-- `getEventsByGame` (part_001, lines 386-393): fetch the events whose
`gameId` matches (in whatever order the storage returns them, here the
order of `stored`), then sort in memory by `createdAt` ascending with the
JavaScript stable sort. -/
def getEventsByGame (stored : List ScoringEvent) (gameId : String) :
    List ScoringEvent :=
  List.insertionSort createdAtLe
    (stored.filter (fun e => decide (e.gameId = gameId)))

/-- `getEventsByTournament` (part_001, lines 395-402): same, keyed on
`tournamentId`. -/
def getEventsByTournament (stored : List ScoringEvent)
    (tournamentId : String) : List ScoringEvent :=
  List.insertionSort createdAtLe
    (stored.filter (fun e => decide (e.tournamentId = tournamentId)))

/-- `statsMap.has(key)` over the insertion-ordered map entries. -/
def statsHas (acc : List PlayerStats) (key : Option String) : Bool :=
  acc.any (fun s => decide (s.playerId = key))

/-- `statsMap.get(key)!.goals++`: increment `goals` on the (unique) entry
with this key; entries are unique because they are only ever inserted
when absent. -/
def bumpGoals : List PlayerStats → Option String → List PlayerStats
  | [], _ => []
  | s :: rest, key =>
    if s.playerId = key then { s with goals := s.goals + 1 } :: rest
    else s :: bumpGoals rest key

/-- `statsMap.get(key)!.assists++`. -/
def bumpAssists : List PlayerStats → Option String → List PlayerStats
  | [], _ => []
  | s :: rest, key =>
    if s.playerId = key then { s with assists := s.assists + 1 } :: rest
    else s :: bumpAssists rest key

/-- The `if (!statsMap.has(key)) statsMap.set(key, zero-seeded record)`
pattern of `calculateStatsFromEvents`. -/
def seedIfAbsent (acc : List PlayerStats) (key name : Option String)
    (number : Option Nat) (teamId : String) : List PlayerStats :=
  if statsHas acc key then acc
  else acc ++ [{ playerId := key, playerName := name,
                 playerNumber := number, teamId := teamId,
                 goals := 0, assists := 0 }]

/-- The body of the `events.forEach` loop of `calculateStatsFromEvents`
(part_001, lines 458-488): seed the scorer's record if absent and count a
goal for `event.scorerPlayerId` — unconditionally, present or not — then,
only if `event.assisterPlayerId` is truthy, seed the assister's record if
absent and count an assist. -/
def statsStep (acc : List PlayerStats) (event : ScoringEvent) :
    List PlayerStats :=
  let acc2 := bumpGoals
    (seedIfAbsent acc event.scorerPlayerId event.scorerName
      event.scorerNumber event.teamId)
    event.scorerPlayerId
  match event.assisterPlayerId with
  | none => acc2
  | some a =>
    bumpAssists
      (seedIfAbsent acc2 (some a) event.assisterName event.assisterNumber
        event.teamId)
      (some a)

/-- Final `.sort((a, b) => (b.goals + b.assists) - (a.goals + a.assists))`:
stable sort, descending by `goals + assists`. -/
def totalDesc (a b : PlayerStats) : Prop :=
  b.goals + b.assists ≤ a.goals + a.assists

instance : DecidableRel totalDesc := fun _ _ => Nat.decLe _ _

/-- `calculateStatsFromEvents` (part_001, lines 455-493). -/
def calculateStatsFromEvents (events : List ScoringEvent) :
    List PlayerStats :=
  List.insertionSort totalDesc (events.foldl statsStep [])

/-- Total goals credited to entries with this `playerId` key (the key is
unique in the produced map, so this is that entry's `goals`, or 0 if the
key is absent). -/
def goalsOf (stats : List PlayerStats) (key : Option String) : Nat :=
  ((stats.filter (fun s => decide (s.playerId = key))).map
    (fun s => s.goals)).sum

/-- Total assists credited to entries with this `playerId` key. -/
def assistsOf (stats : List PlayerStats) (key : Option String) : Nat :=
  ((stats.filter (fun s => decide (s.playerId = key))).map
    (fun s => s.assists)).sum

structure DB where
  games : List Game
  events : List ScoringEvent
  history : Nat
deriving DecidableEq, Repr

/-- `createHistoryEntry` (part_001, lines 81-107) as seen by its callers:
one fallible `addDoc` into the `history` collection (`auth.currentUser`
is assumed present; the user-absent early return is not modelled, it
only makes the call a successful no-op). -/
def createHistoryEntry (failHist : Bool) (db : DB) :
    Except String Unit × DB :=
  if failHist then (Except.error "history write failed", db)
  else (Except.ok (), { db with history := db.history + 1 })

/-- `updateDoc(doc(gamesRef, id), fields)`: rejects when the call fails or
no document with that id exists; otherwise applies `f` to the matching
documents (ids are unique keys in Firestore, so at most one matches). -/
def updateGameDoc (failUpdate : Bool) (id : String) (f : Game → Game)
    (db : DB) : Except String Unit × DB :=
  if failUpdate then (Except.error "updateDoc failed", db)
  else if db.games.any (fun g => decide (g.id = id)) then
    (Except.ok (),
     { db with games := db.games.map (fun g => if g.id = id then f g else g) })
  else (Except.error "updateDoc: no document to update", db)

/-- `createScoringEvent` (part_001, lines 404-425):
1. `addDoc(eventsRef, withTimestamps(data))` — the stored document gets
   `createdAt := now` and the assigned id `newId`;
2. `updateDoc` on the game document: the scoring team's side is set from
   `data`, the other side is re-written from the **passed** `game`
   argument's current field;
3. `await createHistoryEntry(...)` — awaited, so its failure rejects the
   whole call;
returns `{ id: docRef.id, ...data }` (no `createdAt`). -/
def createScoringEvent (data : CreateScoringEventData) (game : Game)
    (newId : String) (now : Nat)
    (failAdd failUpdate failHist : Bool) (db : DB) :
    Except String ScoringEvent × DB :=
  if failAdd then (Except.error "addDoc failed", db)
  else
    let db1 := { db with events := db.events ++ [mkScoringEvent newId (some now) data] }
    let isHomeTeam : Bool := decide (data.teamId = game.homeTeamId)
    match updateGameDoc failUpdate game.id
      (fun g => { g with
        homeScore := if isHomeTeam then data.homeScore else game.homeScore,
        awayScore := if !isHomeTeam then data.awayScore else game.awayScore }) db1 with
    | (Except.error msg, db2) => (Except.error msg, db2)
    | (Except.ok _, db2) =>
      match createHistoryEntry failHist db2 with
      | (Except.error msg, db3) => (Except.error msg, db3)
      | (Except.ok _, db3) => (Except.ok (mkScoringEvent newId none data), db3)

/-- `deleteScoringEvent` (part_001, lines 427-449):
1. `deleteDoc` on the event document (idempotent in Firestore: succeeds
   even if the id is absent, unless the call itself fails);
2. re-fetch the game's remaining events (`getEventsByGame`, fallible);
3. recount `homeScore`/`awayScore` from them;
4. `updateDoc` the game document with the recomputed scores;
5. `await createHistoryEntry(...)` — awaited. -/
def deleteScoringEvent (event : ScoringEvent) (game : Game)
    (failDelete failGet failUpdate failHist : Bool) (db : DB) :
    Except String Unit × DB :=
  if failDelete then (Except.error "deleteDoc failed", db)
  else
    let db1 := { db with events := db.events.filter (fun e => decide (¬ e.id = event.id)) }
    if failGet then (Except.error "getDocs failed", db1)
    else
      let remainingEvents := getEventsByGame db1.events game.id
      let homeScore := (remainingEvents.filter (fun e => decide (e.teamId = game.homeTeamId))).length
      let awayScore := (remainingEvents.filter (fun e => decide (e.teamId = game.awayTeamId))).length
      match updateGameDoc failUpdate game.id
        (fun g => { g with homeScore := homeScore, awayScore := awayScore }) db1 with
      | (Except.error msg, db2) => (Except.error msg, db2)
      | (Except.ok _, db2) =>
        match createHistoryEntry failHist db2 with
        | (Except.error msg, db3) => (Except.error msg, db3)
        | (Except.ok _, db3) => (Except.ok (), db3)

/-- The in-memory fields of the MobX `GameStore`
(src/src/stores/GameStore.ts) that the scoring operations touch. -/
structure GameStoreState where
  games : List Game
  currentGame : Option Game
  events : List ScoringEvent
  error : Option String
deriving DecidableEq, Repr

/-- `this.games[index] = game` after
`findIndex((g) => g.id === game.id)`: replace the first entry with a
matching id, leave the list unchanged when none matches. -/
def setGameById : List Game → Game → List Game
  | [], _ => []
  | x :: xs, game => if x.id = game.id then game :: xs else x :: setGameById xs game

namespace GameStore

/-- `GameStore.addScoringEvent` (GameStore.ts, lines 166-194): no-op
returning `null` without an active game; otherwise await
`createScoringEvent(data, this.currentGame)`; on success push the event,
set the held game's scores to `data.homeScore`/`data.awayScore` and
mirror it into the games list; on failure record the message in
`this.error` and return `null`, touching nothing else in memory. -/
def addScoringEvent (s : GameStoreState) (data : CreateScoringEventData)
    (newId : String) (now : Nat)
    (failAdd failUpdate failHist : Bool) (db : DB) :
    Option ScoringEvent × GameStoreState × DB :=
  match s.currentGame with
  | none => (none, s, db)
  | some game =>
    match createScoringEvent data game newId now failAdd failUpdate failHist db with
    | (Except.error msg, db') => (none, { s with error := some msg }, db')
    | (Except.ok event, db') =>
      let newGame := { game with homeScore := data.homeScore, awayScore := data.awayScore }
      (some event,
       { s with events := s.events ++ [event],
                currentGame := some newGame,
                games := setGameById s.games newGame },
       db')

/-- `GameStore.undoLastEvent` (GameStore.ts, lines 196-228): no-op
returning `false` when there is no active game or the in-memory `events`
array is empty; otherwise take `events[events.length - 1]` (the last
**array** element), await `deleteScoringEvent(lastEvent, this.currentGame)`;
on success pop the array, recount both scores from the remaining
in-memory events, write them into the held game and the games list, and
return `true`; on failure record the message and return `false`. -/
def undoLastEvent (s : GameStoreState)
    (failDelete failGet failUpdate failHist : Bool) (db : DB) :
    Bool × GameStoreState × DB :=
  match s.currentGame, s.events.getLast? with
  | none, _ => (false, s, db)
  | some _, none => (false, s, db)
  | some game, some lastEvent =>
    match deleteScoringEvent lastEvent game failDelete failGet failUpdate failHist db with
    | (Except.error msg, db') => (false, { s with error := some msg }, db')
    | (Except.ok _, db') =>
      let events' := s.events.dropLast
      let homeScore := (events'.filter (fun e => decide (e.teamId = game.homeTeamId))).length
      let awayScore := (events'.filter (fun e => decide (e.teamId = game.awayTeamId))).length
      let newGame := { game with homeScore := homeScore, awayScore := awayScore }
      (true,
       { s with events := events',
                currentGame := some newGame,
                games := setGameById s.games newGame },
       db')

end GameStore

/-- `currentRoster` (GamesPage.tsx, lines 446-450): the roster shown in
the assister/scorer grids, `null` when the remembered team id matches
neither side. -/
def currentRoster (view : Game) (scoringTeamId : String) :
    Option (List RosterPlayer) :=
  if scoringTeamId = view.homeTeamId then some view.homeRoster
  else if scoringTeamId = view.awayTeamId then some view.awayRoster
  else none

/-- The step-3 scorer grid's candidate list (GamesPage.tsx, lines
701-702): `currentRoster.filter((p) => assisterPlayerId === 'none' ||
p.playerId !== assisterPlayerId)`. -/
def scorerStepCandidates (roster : List RosterPlayer)
    (assisterPlayerId : String) : List RosterPlayer :=
  roster.filter (fun p =>
    decide (assisterPlayerId = "none" ∨ ¬ p.playerId = assisterPlayerId))

/-- The event payload `handleScorePoint` (GamesPage.tsx, lines 251-279)
assembles from the interaction state before calling
`gameStore.addScoringEvent`.  `assisterPlayerId : Option String` models
the `string | null | 'none'` React state (with `"none"` the skip
sentinel), `goalScorerPlayerId` the tapped grid value (`"none"` for the
skip button). -/
def buildScoringEventData (view : Game) (scoringTeamId : String)
    (assisterPlayerId : Option String) (goalScorerPlayerId : String)
    (scoredAt : Nat) : CreateScoringEventData :=
  let isHomeTeam : Bool := decide (scoringTeamId = view.homeTeamId)
  let roster := if isHomeTeam then view.homeRoster else view.awayRoster
  let scorer : Option RosterPlayer :=
    if goalScorerPlayerId = "none" then none
    else roster.find? (fun p => decide (p.playerId = goalScorerPlayerId))
  let assister : Option RosterPlayer :=
    match assisterPlayerId with
    | none => none
    | some a =>
      if a = "none" then none
      else roster.find? (fun p => decide (p.playerId = a))
  { gameId := view.id, tournamentId := view.tournamentId,
    teamId := scoringTeamId,
    scorerPlayerId := scorer.map (fun p => p.playerId),
    scorerNumber := scorer.map (fun p => p.number),
    scorerName := scorer.map (fun p => p.playerName),
    assisterPlayerId := assister.map (fun p => p.playerId),
    assisterNumber := assister.map (fun p => p.number),
    assisterName := assister.map (fun p => p.playerName),
    homeScore := if isHomeTeam then view.homeScore + 1 else view.homeScore,
    awayScore := if !isHomeTeam then view.awayScore + 1 else view.awayScore,
    scoredAt := some scoredAt }

/-- `handleScorePoint` (GamesPage.tsx, lines 251-295), from the guard
(`activeGameView` and `scoringTeamId` both set) to the awaited
`gameStore.addScoringEvent` call; the toast and the local
`setActiveGameView` mirror are display-only. -/
def handleScorePoint (view : Game) (scoringTeamId : String)
    (assisterPlayerId : Option String) (goalScorerPlayerId : String)
    (scoredAt : Nat) (s : GameStoreState) (newId : String) (now : Nat)
    (failAdd failUpdate failHist : Bool) (db : DB) :
    Option ScoringEvent × GameStoreState × DB :=
  GameStore.addScoringEvent s
    (buildScoringEventData view scoringTeamId assisterPlayerId
      goalScorerPlayerId scoredAt)
    newId now failAdd failUpdate failHist db

/-! ### Concrete fixtures used by counterexamples and witnesses -/

def rosterH : List RosterPlayer :=
  [{ playerId := "p1", playerName := "Ann", number := 7 },
   { playerId := "p2", playerName := "Bo", number := 9 },
   { playerId := "p3", playerName := "Cy", number := 3 }]

def rosterA : List RosterPlayer :=
  [{ playerId := "q1", playerName := "Dee", number := 4 },
   { playerId := "q2", playerName := "Eli", number := 5 }]

def gameW : Game :=
  { id := "g1", tournamentId := "t1", homeTeamId := "H", awayTeamId := "A",
    homeRoster := rosterH, awayRoster := rosterA,
    homeScore := 1, awayScore := 0 }

def evW1 : ScoringEvent :=
  { id := "e1", createdAt := some 100, gameId := "g1", tournamentId := "t1",
    teamId := "H", scorerPlayerId := some "p1", scorerNumber := some 7,
    scorerName := some "Ann", assisterPlayerId := some "p2",
    assisterNumber := some 9, assisterName := some "Bo",
    homeScore := 1, awayScore := 0, scoredAt := some 100 }

def dbW : DB := { games := [gameW], events := [evW1], history := 0 }

def storeW : GameStoreState :=
  { games := [gameW], currentGame := some gameW, events := [evW1],
    error := none }

def dataW : CreateScoringEventData :=
  { gameId := "g1", tournamentId := "t1", teamId := "A",
    scorerPlayerId := some "q1", scorerNumber := some 4,
    scorerName := some "Dee", assisterPlayerId := none,
    assisterNumber := none, assisterName := none,
    homeScore := 1, awayScore := 1, scoredAt := some 200 }

def evTieA : ScoringEvent :=
  { id := "a", createdAt := some 5, gameId := "g1", tournamentId := "t1",
    teamId := "H", scorerPlayerId := some "p1", scorerNumber := some 7,
    scorerName := some "Ann", assisterPlayerId := none,
    assisterNumber := none, assisterName := none,
    homeScore := 1, awayScore := 0, scoredAt := none }

def evTieB : ScoringEvent := { evTieA with id := "b" }

def evU1 : ScoringEvent :=
  { id := "u1", createdAt := some 1, gameId := "g1", tournamentId := "t1",
    teamId := "H", scorerPlayerId := some "p1", scorerNumber := some 7,
    scorerName := some "Ann", assisterPlayerId := none,
    assisterNumber := none, assisterName := none,
    homeScore := 1, awayScore := 0, scoredAt := none }

def evU2 : ScoringEvent :=
  { id := "u2", createdAt := some 2, gameId := "g1", tournamentId := "t1",
    teamId := "A", scorerPlayerId := some "q1", scorerNumber := some 4,
    scorerName := some "Dee", assisterPlayerId := none,
    assisterNumber := none, assisterName := none,
    homeScore := 1, awayScore := 1, scoredAt := none }

def evNoScorer : ScoringEvent :=
  { id := "n1", createdAt := some 10, gameId := "g1", tournamentId := "t1",
    teamId := "H", scorerPlayerId := none, scorerNumber := none,
    scorerName := none, assisterPlayerId := none, assisterNumber := none,
    assisterName := none, homeScore := 1, awayScore := 0, scoredAt := none }

/-! ### C8 -/

/-- C8: with an empty in-memory event log, `undoLastEvent` returns
`false` and leaves the store and the database untouched, whatever the
persistence backend would have done (the equality holds for every
failure flag, so no persistence call can have been made). -/
theorem undoLastEvent_empty_noop (s : GameStoreState) (h : s.events = [])
    (fd fg fu fh : Bool) (db : DB) :
    GameStore.undoLastEvent s fd fg fu fh db = (false, s, db) := by
  unfold GameStore.undoLastEvent
  cases s.currentGame <;> simp [h]

/-- C8 witness: a concrete store with an active game and no events. -/
theorem undoLastEvent_empty_noop_witness :
    GameStore.undoLastEvent
      { games := [gameW], currentGame := some gameW, events := [],
        error := none } true true true true dbW =
      (false,
       { games := [gameW], currentGame := some gameW, events := [],
         error := none }, dbW) :=
  undoLastEvent_empty_noop _ rfl true true true true dbW

/-! ### C4 -/

/-- C4 counterexample: two events share `createdAt`; the loaded order is
whatever order the storage returned, in both directions, so ties are not
broken by the assigned id ("b" precedes "a" in the first run) and the
result is not deterministic across reloads. -/
theorem getEventsByGame_tie_order_depends_on_storage :
    getEventsByGame [evTieB, evTieA] "g1" = [evTieB, evTieA] ∧
    getEventsByGame [evTieA, evTieB] "g1" = [evTieA, evTieB] ∧
    evTieA.createdAt = evTieB.createdAt ∧
    evTieA.id ≠ evTieB.id ∧
    getEventsByGame [evTieB, evTieA] "g1" ≠ getEventsByGame [evTieA, evTieB] "g1" := by
  refine ⟨by decide, by decide, rfl, by decide, by decide⟩

/-- C4 amended: loading returns exactly the stored events with the given
key, sorted by `createdAt` ascending; there is no secondary id tiebreak —
events with equal `createdAt` keep the relative order the storage layer
returned them in (stable sort), so the order is not deterministic across
reloads when timestamps tie. -/
theorem eventLoaders_sorted_perm (stored : List ScoringEvent)
    (gid tid : String) :
    List.Sorted createdAtLe (getEventsByGame stored gid) ∧
    (getEventsByGame stored gid).Perm
      (stored.filter (fun e => decide (e.gameId = gid))) ∧
    List.Sorted createdAtLe (getEventsByTournament stored tid) ∧
    (getEventsByTournament stored tid).Perm
      (stored.filter (fun e => decide (e.tournamentId = tid))) :=
  ⟨List.sorted_insertionSort _ _, List.perm_insertionSort _ _,
   List.sorted_insertionSort _ _, List.perm_insertionSort _ _⟩

/-! ### C3 -/

/-- Helper: whenever any of its three persistence calls is flagged to
fail, `createScoringEvent` returns an error. -/
theorem createScoringEvent_isError_of_flag (data : CreateScoringEventData)
    (game : Game) (newId : String) (now : Nat) (fa fu fh : Bool) (db : DB)
    (h : fa = true ∨ fu = true ∨ fh = true) :
    ∀ ev db', createScoringEvent data game newId now fa fu fh db ≠ (Except.ok ev, db') := by
  intro ev db'
  cases fa <;> cases fu <;> cases fh <;>
    simp [createScoringEvent, updateGameDoc, createHistoryEntry] at h ⊢ <;>
    split <;> simp

/-- Helper: whenever any of its four persistence calls is flagged to
fail, `deleteScoringEvent` returns an error. -/
theorem deleteScoringEvent_isError_of_flag (event : ScoringEvent)
    (game : Game) (fd fg fu fh : Bool) (db : DB)
    (h : fd = true ∨ fg = true ∨ fu = true ∨ fh = true) :
    ∀ u db', deleteScoringEvent event game fd fg fu fh db ≠ (Except.ok u, db') := by
  intro u db'
  cases fd <;> cases fg <;> cases fu <;> cases fh <;>
    simp [deleteScoringEvent, updateGameDoc, createHistoryEntry] at h ⊢ <;>
    split <;> simp

/-- C3: if any persistence call made during `addScoringEvent` or
`undoLastEvent` fails, the held in-memory game, the score fields it
carries, the games list and the in-memory event array are all unchanged;
the operation returns `null`/`false` and records an error message — the
only in-memory field that changes is `error`. -/
theorem failed_persistence_leaves_store_unchanged :
    (∀ (s : GameStoreState) (game : Game) (data : CreateScoringEventData)
       (newId : String) (now : Nat) (fa fu fh : Bool) (db : DB),
       s.currentGame = some game →
       (fa = true ∨ fu = true ∨ fh = true) →
       ∃ msg db',
         GameStore.addScoringEvent s data newId now fa fu fh db =
           (none, { s with error := some msg }, db')) ∧
    (∀ (s : GameStoreState) (game : Game) (lastEvent : ScoringEvent)
       (fd fg fu fh : Bool) (db : DB),
       s.currentGame = some game →
       s.events.getLast? = some lastEvent →
       (fd = true ∨ fg = true ∨ fu = true ∨ fh = true) →
       ∃ msg db',
         GameStore.undoLastEvent s fd fg fu fh db =
           (false, { s with error := some msg }, db')) := by
  constructor
  · intro s game data newId now fa fu fh db hcur hflag
    have herr := createScoringEvent_isError_of_flag data game newId now fa fu fh db hflag
    unfold GameStore.addScoringEvent
    rw [hcur]
    rcases hres : createScoringEvent data game newId now fa fu fh db with ⟨r, db2⟩
    cases r with
    | error msg => exact ⟨msg, db2, by simp [hres]⟩
    | ok ev => exact absurd hres (herr ev db2)
  · intro s game lastEvent fd fg fu fh db hcur hlast hflag
    have herr := deleteScoringEvent_isError_of_flag lastEvent game fd fg fu fh db hflag
    unfold GameStore.undoLastEvent
    rw [hcur, hlast]
    rcases hres : deleteScoringEvent lastEvent game fd fg fu fh db with ⟨r, db2⟩
    cases r with
    | error msg => exact ⟨msg, db2, by simp [hres]⟩
    | ok u => exact absurd hres (herr u db2)

/-- C3 witness: concrete failing append (the `addDoc` call rejects) and
failing undo (the `deleteDoc` call rejects) on a populated session. -/
theorem failed_persistence_leaves_store_unchanged_witness :
    (∃ msg db',
       GameStore.addScoringEvent storeW dataW "e2" 200 true false false dbW =
         (none, { storeW with error := some msg }, db')) ∧
    (∃ msg db',
       GameStore.undoLastEvent storeW true false false false dbW =
         (false, { storeW with error := some msg }, db')) :=
  ⟨failed_persistence_leaves_store_unchanged.1 storeW gameW dataW "e2" 200
      true false false dbW rfl (Or.inl rfl),
   failed_persistence_leaves_store_unchanged.2 storeW gameW evW1
      true false false false dbW rfl rfl (Or.inl rfl)⟩

/-! ### C2 -/

/-- C2 counterexample: with the in-memory array holding the two events
out of `createdAt` order, `undoLastEvent` deletes the event at the last
**array** position (`"u1"`, `createdAt = 1`) and keeps `"u2"`
(`createdAt = 2`) — the chronologically-last event by the `createdAt`
ordering rule is the one that survives, refuting "removes the
chronologically-last event, not by in-memory array position". -/
theorem undo_removes_array_last_not_chronological :
    (GameStore.undoLastEvent
      { games := [gameW], currentGame := some gameW,
        events := [evU2, evU1], error := none }
      false false false false
      { games := [gameW], events := [evU1, evU2], history := 0 }).1 = true ∧
    (GameStore.undoLastEvent
      { games := [gameW], currentGame := some gameW,
        events := [evU2, evU1], error := none }
      false false false false
      { games := [gameW], events := [evU1, evU2], history := 0 }).2.2.events.map
        (fun e => e.id) = ["u2"] ∧
    (GameStore.undoLastEvent
      { games := [gameW], currentGame := some gameW,
        events := [evU2, evU1], error := none }
      false false false false
      { games := [gameW], events := [evU1, evU2], history := 0 }).2.1.events = [evU2] ∧
    evU1.createdAtMillis < evU2.createdAtMillis := by
  refine ⟨by decide, by decide, by decide, by decide⟩

/-- C2 amended: on a non-empty in-memory log (and with the game document
present so the score write-back succeeds), `undoLastEvent` removes the
event at the **last in-memory array position**, recomputes the full held
score by counting each team's events among the remaining in-memory
events (not by decrementing), has the persistence layer recompute the
stored game's score by counting the remaining stored events of that
game, and returns `true`. -/
theorem undoLastEvent_success_behavior
    (s : GameStoreState) (game : Game) (lastEvent : ScoringEvent) (db : DB)
    (hcur : s.currentGame = some game)
    (hlast : s.events.getLast? = some lastEvent)
    (hdoc : db.games.any (fun g => decide (g.id = game.id)) = true) :
    GameStore.undoLastEvent s false false false false db =
      (true,
       { s with
          events := s.events.dropLast,
          currentGame := some { game with
            homeScore := (s.events.dropLast.filter
              (fun e => decide (e.teamId = game.homeTeamId))).length,
            awayScore := (s.events.dropLast.filter
              (fun e => decide (e.teamId = game.awayTeamId))).length },
          games := setGameById s.games { game with
            homeScore := (s.events.dropLast.filter
              (fun e => decide (e.teamId = game.homeTeamId))).length,
            awayScore := (s.events.dropLast.filter
              (fun e => decide (e.teamId = game.awayTeamId))).length } },
       { db with
          events := db.events.filter (fun e => decide (¬ e.id = lastEvent.id)),
          games := db.games.map (fun g =>
            if g.id = game.id then { g with
              homeScore := ((getEventsByGame
                  (db.events.filter (fun e => decide (¬ e.id = lastEvent.id)))
                  game.id).filter
                (fun e => decide (e.teamId = game.homeTeamId))).length,
              awayScore := ((getEventsByGame
                  (db.events.filter (fun e => decide (¬ e.id = lastEvent.id)))
                  game.id).filter
                (fun e => decide (e.teamId = game.awayTeamId))).length }
            else g),
          history := db.history + 1 }) := by
  simp [GameStore.undoLastEvent, hcur, hlast, deleteScoringEvent,
    updateGameDoc, createHistoryEntry, hdoc]

/-- C2 amended witness: undoing the single event of the concrete session. -/
theorem undoLastEvent_success_behavior_witness :
    GameStore.undoLastEvent storeW false false false false dbW =
      (true,
       { storeW with
          events := [],
          currentGame := some { gameW with homeScore := 0, awayScore := 0 },
          games := [{ gameW with homeScore := 0, awayScore := 0 }] },
       { games := [{ gameW with homeScore := 0, awayScore := 0 }],
         events := [], history := 1 }) := by
  have h := undoLastEvent_success_behavior storeW gameW evW1 dbW rfl rfl (by decide)
  simpa [storeW, dbW, gameW, setGameById] using h

/-! ### C1 -/

/-- Helper: the success path of `createScoringEvent` (no call fails and
the game document exists): the stored event carries `createdAt := now`,
the game document's scoring side is written from `data` and the other
side from the passed `game` argument, one history entry is written, and
the returned event is `{ id, ...data }` without `createdAt`. -/
theorem createScoringEvent_success (data : CreateScoringEventData)
    (game : Game) (newId : String) (now : Nat) (db : DB)
    (hdoc : db.games.any (fun g => decide (g.id = game.id)) = true) :
    createScoringEvent data game newId now false false false db =
      (Except.ok (mkScoringEvent newId none data),
       { db with
          events := db.events ++ [mkScoringEvent newId (some now) data],
          games := db.games.map (fun g =>
            if g.id = game.id then { g with
              homeScore := if data.teamId = game.homeTeamId then data.homeScore else game.homeScore,
              awayScore := if ¬ data.teamId = game.homeTeamId then data.awayScore else game.awayScore }
            else g),
          history := db.history + 1 }) := by
  simp [createScoringEvent, updateGameDoc, createHistoryEntry, hdoc]

/-- Helper: the success path of `GameStore.addScoringEvent`. -/
theorem addScoringEvent_success (s : GameStoreState) (game : Game)
    (data : CreateScoringEventData) (newId : String) (now : Nat) (db : DB)
    (hcur : s.currentGame = some game)
    (hdoc : db.games.any (fun g => decide (g.id = game.id)) = true) :
    GameStore.addScoringEvent s data newId now false false false db =
      (some (mkScoringEvent newId none data),
       { s with
          events := s.events ++ [mkScoringEvent newId none data],
          currentGame := some { game with
            homeScore := data.homeScore, awayScore := data.awayScore },
          games := setGameById s.games { game with
            homeScore := data.homeScore, awayScore := data.awayScore } },
       { db with
          events := db.events ++ [mkScoringEvent newId (some now) data],
          games := db.games.map (fun g =>
            if g.id = game.id then { g with
              homeScore := if data.teamId = game.homeTeamId then data.homeScore else game.homeScore,
              awayScore := if ¬ data.teamId = game.homeTeamId then data.awayScore else game.awayScore }
            else g),
          history := db.history + 1 }) := by
  simp only [GameStore.addScoringEvent, hcur,
    createScoringEvent_success data game newId now db hdoc]

/-- C1: a successful `handleScorePoint` (candidate completed from the
active game view, session holding that same game, persistence healthy)
appends an event whose `homeScore`/`awayScore` snapshot is the pre-event
score with the scoring team's side incremented; the session's held game
carries exactly that snapshot, the persisted game document carries
exactly that snapshot, and the event is appended to the in-memory log. -/
theorem handleScorePoint_score_consistency
    (view : Game) (teamId goalScorer : String) (assister : Option String)
    (scoredAt : Nat) (s : GameStoreState) (newId : String) (now : Nat)
    (db : DB)
    (hcur : s.currentGame = some view)
    (hdoc : db.games.any (fun g => decide (g.id = view.id)) = true) :
    ∃ (ev : ScoringEvent) (st : GameStoreState) (db' : DB),
      handleScorePoint view teamId assister goalScorer scoredAt s newId now
          false false false db = (some ev, st, db') ∧
      ev.homeScore = (if teamId = view.homeTeamId then view.homeScore + 1 else view.homeScore) ∧
      ev.awayScore = (if teamId = view.homeTeamId then view.awayScore else view.awayScore + 1) ∧
      st.events = s.events ++ [ev] ∧
      st.currentGame = some { view with
        homeScore := ev.homeScore, awayScore := ev.awayScore } ∧
      (∀ g ∈ db'.games, g.id = view.id →
        g.homeScore = ev.homeScore ∧ g.awayScore = ev.awayScore) := by
  have hrun := addScoringEvent_success s view
    (buildScoringEventData view teamId assister goalScorer scoredAt)
    newId now db hcur hdoc
  refine ⟨_, _, _, hrun, ?_⟩
  have hteam : (buildScoringEventData view teamId assister goalScorer
      scoredAt).teamId = teamId := rfl
  have hhome : (buildScoringEventData view teamId assister goalScorer
      scoredAt).homeScore =
      (if teamId = view.homeTeamId then view.homeScore + 1 else view.homeScore) := by
    by_cases h : teamId = view.homeTeamId <;> simp [buildScoringEventData, h]
  have haway : (buildScoringEventData view teamId assister goalScorer
      scoredAt).awayScore =
      (if teamId = view.homeTeamId then view.awayScore else view.awayScore + 1) := by
    by_cases h : teamId = view.homeTeamId <;> simp [buildScoringEventData, h]
  refine ⟨hhome, haway, rfl, ?_, ?_⟩
  · simp [mkScoringEvent, hhome, haway]
  · intro g hg hid
    rcases List.mem_map.1 hg with ⟨g0, hg0, rfl⟩
    by_cases h0 : g0.id = view.id
    · simp only [h0, if_true]
      by_cases h : teamId = view.homeTeamId <;>
        simp [mkScoringEvent, buildScoringEventData, hteam, h]
    · simp [h0] at hid

/-- C1 witness: away team scores with a skipped assister on the concrete
session. -/
theorem handleScorePoint_score_consistency_witness :
    ∃ (ev : ScoringEvent) (st : GameStoreState) (db' : DB),
      handleScorePoint gameW "A" (some "none") "q1" 300 storeW "e2" 300
          false false false dbW = (some ev, st, db') ∧
      ev.homeScore = (if "A" = gameW.homeTeamId then gameW.homeScore + 1 else gameW.homeScore) ∧
      ev.awayScore = (if "A" = gameW.homeTeamId then gameW.awayScore else gameW.awayScore + 1) ∧
      st.events = storeW.events ++ [ev] ∧
      st.currentGame = some { gameW with
        homeScore := ev.homeScore, awayScore := ev.awayScore } ∧
      (∀ g ∈ db'.games, g.id = gameW.id →
        g.homeScore = ev.homeScore ∧ g.awayScore = ev.awayScore) :=
  handleScorePoint_score_consistency gameW "A" "q1" (some "none") 300 storeW
    "e2" 300 dbW rfl (by decide)

/-! ### C10 -/

/-- Helper: filtering commutes with the load's sort, up to length. -/
theorem getEventsByGame_filter_length (stored : List ScoringEvent)
    (gid : String) (p : ScoringEvent → Bool) :
    ((getEventsByGame stored gid).filter p).length =
      (((stored.filter (fun e => decide (e.gameId = gid)))).filter p).length :=
  List.Perm.length_eq (List.Perm.filter p (List.perm_insertionSort _ _))

/-- C10: `createScoringEvent` writes the event and the score in two
separate calls; when the score update fails after the event write
succeeded, the call rejects, yet the appended event stays in storage and
the game documents keep their old scores — so a persisted game whose
cached score agreed with its event log before the call disagrees with
the log afterwards (here for a home-team event). -/
theorem createScoringEvent_partial_write
    (data : CreateScoringEventData) (game : Game) (newId : String)
    (now : Nat) (fh : Bool) (db : DB) :
    (∃ msg, (createScoringEvent data game newId now false true fh db).1 =
      Except.error msg) ∧
    (createScoringEvent data game newId now false true fh db).2.events =
      db.events ++ [mkScoringEvent newId (some now) data] ∧
    (createScoringEvent data game newId now false true fh db).2.games =
      db.games ∧
    ((data.gameId = game.id ∧ data.teamId = game.homeTeamId) →
      ∀ g ∈ db.games, g.id = game.id →
        g.homeScore = ((getEventsByGame db.events game.id).filter
          (fun e => decide (e.teamId = game.homeTeamId))).length →
        ¬ g.homeScore = ((getEventsByGame
            ((createScoringEvent data game newId now false true fh db).2.events)
            game.id).filter
          (fun e => decide (e.teamId = game.homeTeamId))).length) := by
  have hrun : createScoringEvent data game newId now false true fh db =
      (Except.error "updateDoc failed",
       { db with events := db.events ++ [mkScoringEvent newId (some now) data] }) := by
    simp [createScoringEvent, updateGameDoc]
  refine ⟨⟨"updateDoc failed", by rw [hrun]⟩, by rw [hrun], by rw [hrun], ?_⟩
  rintro ⟨hgid, hteam⟩ g hg hid hcons
  rw [hrun] at *
  rw [getEventsByGame_filter_length] at hcons ⊢
  simp only [List.filter_append, List.filter_cons, List.filter_nil] at *
  have h1 : decide ((mkScoringEvent newId (some now) data).gameId = game.id) = true := by
    simp [mkScoringEvent, hgid]
  have h2 : decide ((mkScoringEvent newId (some now) data).teamId = game.homeTeamId) = true := by
    simp [mkScoringEvent, hteam]
  simp only [h1, if_true, List.filter_append, List.filter_cons, h2,
    List.filter_nil, List.length_append, List.length_cons,
    List.length_nil] at *
  omega

/-- C10 witness: the concrete session, score update failing. -/
theorem createScoringEvent_partial_write_witness :
    (∃ msg, (createScoringEvent dataW gameW "e2" 200 false true false dbW).1 =
      Except.error msg) ∧
    (createScoringEvent dataW gameW "e2" 200 false true false dbW).2.events =
      dbW.events ++ [mkScoringEvent "e2" (some 200) dataW] ∧
    (createScoringEvent dataW gameW "e2" 200 false true false dbW).2.games =
      dbW.games ∧
    ((dataW.gameId = gameW.id ∧ dataW.teamId = gameW.homeTeamId) →
      ∀ g ∈ dbW.games, g.id = gameW.id →
        g.homeScore = ((getEventsByGame dbW.events gameW.id).filter
          (fun e => decide (e.teamId = gameW.homeTeamId))).length →
        ¬ g.homeScore = ((getEventsByGame
            ((createScoringEvent dataW gameW "e2" 200 false true false dbW).2.events)
            gameW.id).filter
          (fun e => decide (e.teamId = gameW.homeTeamId))).length) :=
  createScoringEvent_partial_write dataW gameW "e2" 200 false dbW

/-! ### C9 -/

/-- C9 counterexample: with only the history write failing, the append
rejects at the store level (`addScoringEvent` returns `null`) even
though the event document and the score update had already been written
— and the history-failing delete rejects too.  The history write is
awaited, not fire-and-forget. -/
theorem history_failure_fails_scoring_op :
    (∃ msg, (createScoringEvent dataW gameW "e2" 200 false false true dbW).1 =
      Except.error msg) ∧
    (createScoringEvent dataW gameW "e2" 200 false false true dbW).2.events =
      dbW.events ++ [mkScoringEvent "e2" (some 200) dataW] ∧
    (GameStore.addScoringEvent storeW dataW "e2" 200 false false true dbW).1 =
      none ∧
    (∃ msg, (deleteScoringEvent evW1 gameW false false false true dbW).1 =
      Except.error msg) ∧
    (GameStore.undoLastEvent storeW false false false true dbW).1 = false :=
  ⟨⟨"history write failed", rfl⟩, by decide, rfl,
   ⟨"history write failed", rfl⟩, rfl⟩

/-- C9 amended: the audit/history logger is invoked exactly once per
successful append/delete, but as an awaited step, not fire-and-forget: a
failure of the history write makes `createScoringEvent` /
`deleteScoringEvent` reject, so the scoring operation itself fails (for
the append this happens after the event and score writes already took
effect). -/
theorem history_logger_awaited_once
    (data : CreateScoringEventData) (event : ScoringEvent) (game : Game)
    (newId : String) (now : Nat) (db : DB)
    (hdoc : db.games.any (fun g => decide (g.id = game.id)) = true) :
    (createScoringEvent data game newId now false false false db).2.history =
      db.history + 1 ∧
    (deleteScoringEvent event game false false false false db).2.history =
      db.history + 1 ∧
    (∃ msg, (createScoringEvent data game newId now false false true db).1 =
      Except.error msg) ∧
    (∃ msg, (deleteScoringEvent event game false false false true db).1 =
      Except.error msg) := by
  refine ⟨?_, ?_, ⟨"history write failed", ?_⟩, ⟨"history write failed", ?_⟩⟩ <;>
    simp [createScoringEvent, deleteScoringEvent, updateGameDoc,
      createHistoryEntry, hdoc]

/-- C9 amended witness: the concrete session. -/
theorem history_logger_awaited_once_witness :
    (createScoringEvent dataW gameW "e2" 200 false false false dbW).2.history =
      dbW.history + 1 ∧
    (deleteScoringEvent evW1 gameW false false false false dbW).2.history =
      dbW.history + 1 ∧
    (∃ msg, (createScoringEvent dataW gameW "e2" 200 false false true dbW).1 =
      Except.error msg) ∧
    (∃ msg, (deleteScoringEvent evW1 gameW false false false true dbW).1 =
      Except.error msg) :=
  history_logger_awaited_once dataW evW1 gameW "e2" 200 dbW (by decide)

/-! ### C5 and C6: stats counting -/

theorem goalsOf_nil (pid : Option String) : goalsOf [] pid = 0 := rfl

theorem assistsOf_nil (pid : Option String) : assistsOf [] pid = 0 := rfl

theorem goalsOf_cons (s : PlayerStats) (rest : List PlayerStats)
    (pid : Option String) :
    goalsOf (s :: rest) pid =
      (if s.playerId = pid then s.goals else 0) + goalsOf rest pid := by
  by_cases h : s.playerId = pid <;> simp [goalsOf, List.filter_cons, h]

theorem assistsOf_cons (s : PlayerStats) (rest : List PlayerStats)
    (pid : Option String) :
    assistsOf (s :: rest) pid =
      (if s.playerId = pid then s.assists else 0) + assistsOf rest pid := by
  by_cases h : s.playerId = pid <;> simp [assistsOf, List.filter_cons, h]

theorem goalsOf_bumpGoals (acc : List PlayerStats) (key pid : Option String) :
    goalsOf (bumpGoals acc key) pid =
      goalsOf acc pid +
        (if pid = key ∧ statsHas acc key = true then 1 else 0) := by
  induction acc with
  | nil => simp [bumpGoals, statsHas]
  | cons s rest ih =>
    by_cases hs : s.playerId = key
    · have hhas : statsHas (s :: rest) key = true := by simp [statsHas, hs]
      by_cases hp : pid = key
      · have hsp : s.playerId = pid := by rw [hs, hp]
        simp [bumpGoals, hs, goalsOf_cons, hsp, hhas, hp]
        omega
      · have hkp : ¬ key = pid := fun h => hp h.symm
        simp [bumpGoals, hs, goalsOf_cons, hkp, hp]
    · have hhas : statsHas (s :: rest) key = statsHas rest key := by
        simp [statsHas, hs]
      simp [bumpGoals, hs, goalsOf_cons, ih, hhas]
      omega

theorem assistsOf_bumpGoals (acc : List PlayerStats)
    (key pid : Option String) :
    assistsOf (bumpGoals acc key) pid = assistsOf acc pid := by
  induction acc with
  | nil => simp [bumpGoals]
  | cons s rest ih =>
    by_cases hs : s.playerId = key <;>
      simp [bumpGoals, hs, assistsOf_cons, ih]

theorem assistsOf_bumpAssists (acc : List PlayerStats)
    (key pid : Option String) :
    assistsOf (bumpAssists acc key) pid =
      assistsOf acc pid +
        (if pid = key ∧ statsHas acc key = true then 1 else 0) := by
  induction acc with
  | nil => simp [bumpAssists, statsHas]
  | cons s rest ih =>
    by_cases hs : s.playerId = key
    · have hhas : statsHas (s :: rest) key = true := by simp [statsHas, hs]
      by_cases hp : pid = key
      · have hsp : s.playerId = pid := by rw [hs, hp]
        simp [bumpAssists, hs, assistsOf_cons, hsp, hhas, hp]
        omega
      · have hkp : ¬ key = pid := fun h => hp h.symm
        simp [bumpAssists, hs, assistsOf_cons, hkp, hp]
    · have hhas : statsHas (s :: rest) key = statsHas rest key := by
        simp [statsHas, hs]
      simp [bumpAssists, hs, assistsOf_cons, ih, hhas]
      omega

theorem goalsOf_bumpAssists (acc : List PlayerStats)
    (key pid : Option String) :
    goalsOf (bumpAssists acc key) pid = goalsOf acc pid := by
  induction acc with
  | nil => simp [bumpAssists]
  | cons s rest ih =>
    by_cases hs : s.playerId = key <;>
      simp [bumpAssists, hs, goalsOf_cons, ih]

theorem goalsOf_seedIfAbsent (acc : List PlayerStats)
    (key name : Option String) (number : Option Nat) (teamId : String)
    (pid : Option String) :
    goalsOf (seedIfAbsent acc key name number teamId) pid =
      goalsOf acc pid := by
  unfold seedIfAbsent
  by_cases h : statsHas acc key = true
  · simp [h]
  · by_cases hk : key = pid
    · subst hk
      simp [h, goalsOf, List.filter_append, List.filter_cons]
    · simp [h, hk, goalsOf, List.filter_append, List.filter_cons]

theorem assistsOf_seedIfAbsent (acc : List PlayerStats)
    (key name : Option String) (number : Option Nat) (teamId : String)
    (pid : Option String) :
    assistsOf (seedIfAbsent acc key name number teamId) pid =
      assistsOf acc pid := by
  unfold seedIfAbsent
  by_cases h : statsHas acc key = true
  · simp [h]
  · by_cases hk : key = pid
    · subst hk
      simp [h, assistsOf, List.filter_append, List.filter_cons]
    · simp [h, hk, assistsOf, List.filter_append, List.filter_cons]

theorem statsHas_seedIfAbsent_self (acc : List PlayerStats)
    (key name : Option String) (number : Option Nat) (teamId : String) :
    statsHas (seedIfAbsent acc key name number teamId) key = true := by
  unfold seedIfAbsent
  by_cases h : statsHas acc key = true
  · simpa [h] using h
  · rw [if_neg h]
    simp [statsHas, List.any_append]

theorem goalsOf_statsStep (acc : List PlayerStats) (e : ScoringEvent)
    (pid : Option String) :
    goalsOf (statsStep acc e) pid =
      goalsOf acc pid + (if e.scorerPlayerId = pid then 1 else 0) := by
  unfold statsStep
  cases ha : e.assisterPlayerId with
  | none =>
    simp only []
    rw [goalsOf_bumpGoals, goalsOf_seedIfAbsent, statsHas_seedIfAbsent_self]
    by_cases hp : pid = e.scorerPlayerId <;> simp [hp, eq_comm]
  | some a =>
    simp only []
    rw [goalsOf_bumpAssists, goalsOf_seedIfAbsent, goalsOf_bumpGoals,
      goalsOf_seedIfAbsent, statsHas_seedIfAbsent_self]
    by_cases hp : pid = e.scorerPlayerId <;> simp [hp, eq_comm]

theorem assistsOf_statsStep (acc : List PlayerStats) (e : ScoringEvent)
    (pid : Option String) :
    assistsOf (statsStep acc e) pid =
      assistsOf acc pid +
        (if e.assisterPlayerId = pid ∧ ¬ pid = none then 1 else 0) := by
  unfold statsStep
  cases ha : e.assisterPlayerId with
  | none =>
    simp only []
    rw [assistsOf_bumpGoals, assistsOf_seedIfAbsent]
    cases pid <;> simp
  | some a =>
    simp only []
    rw [assistsOf_bumpAssists, assistsOf_seedIfAbsent,
      statsHas_seedIfAbsent_self, assistsOf_bumpGoals, assistsOf_seedIfAbsent]
    by_cases hp : pid = some a
    · simp [hp]
    · have : ¬ (some a = pid ∧ ¬ pid = none) := by
        rintro ⟨h1, _⟩; exact hp h1.symm
      simp [hp, this]

theorem goalsOf_foldl (es : List ScoringEvent) (acc : List PlayerStats)
    (pid : Option String) :
    goalsOf (es.foldl statsStep acc) pid =
      goalsOf acc pid +
        es.countP (fun e => decide (e.scorerPlayerId = pid)) := by
  induction es generalizing acc with
  | nil => simp
  | cons e es ih =>
    simp only [List.foldl_cons, List.countP_cons]
    rw [ih, goalsOf_statsStep]
    by_cases hp : e.scorerPlayerId = pid <;> simp [hp] <;> omega

theorem assistsOf_foldl (es : List ScoringEvent) (acc : List PlayerStats)
    (pid : Option String) :
    assistsOf (es.foldl statsStep acc) pid =
      assistsOf acc pid +
        es.countP (fun e =>
          decide (e.assisterPlayerId = pid ∧ ¬ pid = none)) := by
  induction es generalizing acc with
  | nil => simp
  | cons e es ih =>
    simp only [List.foldl_cons, List.countP_cons]
    rw [ih, assistsOf_statsStep]
    by_cases hp : e.assisterPlayerId = pid ∧ ¬ pid = none <;>
      simp [hp] <;> omega

theorem goalsOf_perm {l1 l2 : List PlayerStats} (h : l1.Perm l2)
    (pid : Option String) :
    goalsOf l1 pid = goalsOf l2 pid :=
  List.Perm.sum_eq (List.Perm.map _ (List.Perm.filter _ h))

theorem assistsOf_perm {l1 l2 : List PlayerStats} (h : l1.Perm l2)
    (pid : Option String) :
    assistsOf l1 pid = assistsOf l2 pid :=
  List.Perm.sum_eq (List.Perm.map _ (List.Perm.filter _ h))

/-- The per-key goal total of the aggregation equals the number of events
whose `scorerPlayerId` is that key — with no presence check. -/
theorem goalsOf_calculateStats (events : List ScoringEvent)
    (pid : Option String) :
    goalsOf (calculateStatsFromEvents events) pid =
      events.countP (fun e => decide (e.scorerPlayerId = pid)) := by
  unfold calculateStatsFromEvents
  rw [goalsOf_perm (List.perm_insertionSort _ _), goalsOf_foldl]
  simp [goalsOf]

/-- The per-key assist total equals the number of events whose (present)
`assisterPlayerId` is that key. -/
theorem assistsOf_calculateStats (events : List ScoringEvent)
    (pid : Option String) :
    assistsOf (calculateStatsFromEvents events) pid =
      events.countP (fun e =>
        decide (e.assisterPlayerId = pid ∧ ¬ pid = none)) := by
  unfold calculateStatsFromEvents
  rw [assistsOf_perm (List.perm_insertionSort _ _), assistsOf_foldl]
  simp [assistsOf]

/-- C5 counterexample: one event with `scorerPlayerId` skipped
(`undefined`): the aggregation still creates a stats record — keyed by
the absent id — and credits it one goal, refuting "increments goals for
`scorerPlayerId` only when a scorer is present" and "an event logged
with a skipped scorer contributes no goal to any stats record". -/
theorem skipped_scorer_still_counts_goal :
    evNoScorer.scorerPlayerId = none ∧
    (calculateStatsFromEvents [evNoScorer]).map
      (fun s => (s.playerId, s.goals)) = [(none, 1)] :=
  ⟨rfl, by decide⟩

/-- C5 amended: the aggregation credits one goal per event to the stats
record keyed by the event's `scorerPlayerId`, **whether or not a scorer
is present** — a skipped scorer accumulates goals under the absent-id
key — while assists are credited only for events whose
`assisterPlayerId` is actually present, and no record keyed by an absent
id ever receives an assist. -/
theorem stats_counting_amended (events : List ScoringEvent)
    (pid : Option String) :
    goalsOf (calculateStatsFromEvents events) pid =
      events.countP (fun e => decide (e.scorerPlayerId = pid)) ∧
    assistsOf (calculateStatsFromEvents events) pid =
      events.countP (fun e =>
        decide (e.assisterPlayerId = pid ∧ ¬ pid = none)) ∧
    assistsOf (calculateStatsFromEvents events) none = 0 := by
  refine ⟨goalsOf_calculateStats events pid,
          assistsOf_calculateStats events pid, ?_⟩
  rw [assistsOf_calculateStats]
  simp

/-! ### C6 -/

/-- C6: the per-key goal and assist totals of the aggregation are
invariant under any permutation of the event log (the aggregate is a
multiset fold with respect to the final counts). -/
theorem calculateStats_perm_invariant (E E2 : List ScoringEvent)
    (h : E.Perm E2) (pid : Option String) :
    goalsOf (calculateStatsFromEvents E2) pid =
      goalsOf (calculateStatsFromEvents E) pid ∧
    assistsOf (calculateStatsFromEvents E2) pid =
      assistsOf (calculateStatsFromEvents E) pid := by
  rw [goalsOf_calculateStats, goalsOf_calculateStats,
    assistsOf_calculateStats, assistsOf_calculateStats]
  exact ⟨List.Perm.countP_eq _ h.symm, List.Perm.countP_eq _ h.symm⟩

/-- C6 witness: a two-event log and its reversal. -/
theorem calculateStats_perm_invariant_witness :
    goalsOf (calculateStatsFromEvents [evU2, evW1]) (some "p1") =
      goalsOf (calculateStatsFromEvents [evW1, evU2]) (some "p1") ∧
    assistsOf (calculateStatsFromEvents [evU2, evW1]) (some "p1") =
      assistsOf (calculateStatsFromEvents [evW1, evU2]) (some "p1") :=
  calculateStats_perm_invariant [evW1, evU2] [evU2, evW1] (by decide)
    (some "p1")

/-! ### C7 -/

/-- C7: every entry of the step-3 scorer grid differs from the chosen
assister (unless the assister was skipped), and any candidate event the
flow emits from a grid tap (or the skip button) with both ids present
has `scorerPlayerId ≠ assisterPlayerId`. -/
theorem scorer_step_excludes_chosen_assister
    (view : Game) (teamId aPid goalScorer : String) (scoredAt : Nat)
    (roster : List RosterPlayer)
    (hroster : currentRoster view teamId = some roster)
    (hgrid : goalScorer = "none" ∨
      goalScorer ∈ (scorerStepCandidates roster aPid).map
        (fun p => p.playerId)) :
    (∀ p ∈ scorerStepCandidates roster aPid,
      aPid = "none" ∨ ¬ p.playerId = aPid) ∧
    (∀ sp ap,
      (buildScoringEventData view teamId (some aPid) goalScorer
        scoredAt).scorerPlayerId = some sp →
      (buildScoringEventData view teamId (some aPid) goalScorer
        scoredAt).assisterPlayerId = some ap →
      ¬ sp = ap) := by
  constructor
  · intro p hp
    have := List.of_mem_filter hp
    simpa using this
  · intro sp ap hsp hap
    have hro : (if decide (teamId = view.homeTeamId) = true
        then view.homeRoster else view.awayRoster) = roster := by
      unfold currentRoster at hroster
      by_cases h1 : teamId = view.homeTeamId
      · rw [if_pos h1] at hroster
        simpa [h1] using Option.some.inj hroster
      · rw [if_neg h1] at hroster
        by_cases h2 : teamId = view.awayTeamId
        · rw [if_pos h2] at hroster
          simpa [h1] using Option.some.inj hroster
        · rw [if_neg h2] at hroster
          exact absurd hroster (by simp)
    unfold buildScoringEventData at hsp hap
    simp only [hro] at hsp hap
    by_cases hnone : aPid = "none"
    · simp [hnone] at hap
    · simp only [hnone, if_false] at hap
      rcases hfind : roster.find? (fun p => decide (p.playerId = aPid)) with _ | asr
      · simp [hfind] at hap
      · have hasr : asr.playerId = aPid := by
          have := List.find?_some hfind
          simpa using this
        rw [hfind] at hap
        have h1 : asr.playerId = ap := by simpa using hap
        by_cases hgs : goalScorer = "none"
        · simp [hgs] at hsp
        · simp only [hgs, if_false] at hsp
          rcases hfind2 : roster.find? (fun p => decide (p.playerId = goalScorer)) with _ | sc
          · simp [hfind2] at hsp
          · have hsc : sc.playerId = goalScorer := by
              have := List.find?_some hfind2
              simpa using this
            rw [hfind2] at hsp
            have h2 : sc.playerId = sp := by simpa using hsp
            rcases hgrid with hg | hg
            · exact absurd hg hgs
            · rcases List.mem_map.1 hg with ⟨q, hq, hqid⟩
              have hqex : aPid = "none" ∨ ¬ q.playerId = aPid := by
                simpa using List.of_mem_filter hq
              rcases hqex with h | h
              · exact absurd h hnone
              · intro hcontra
                apply h
                calc q.playerId = goalScorer := hqid
                  _ = sc.playerId := hsc.symm
                  _ = sp := h2
                  _ = ap := hcontra
                  _ = aPid := by rw [← h1, hasr]

/-- C7 witness: the home roster with assister `p2` chosen and scorer `p1`
tapped from the filtered grid. -/
theorem scorer_step_excludes_chosen_assister_witness :
    (∀ p ∈ scorerStepCandidates rosterH "p2",
      ("p2" : String) = "none" ∨ ¬ p.playerId = "p2") ∧
    (∀ sp ap,
      (buildScoringEventData gameW "H" (some "p2") "p1"
        300).scorerPlayerId = some sp →
      (buildScoringEventData gameW "H" (some "p2") "p1"
        300).assisterPlayerId = some ap →
      ¬ sp = ap) :=
  scorer_step_excludes_chosen_assister gameW "H" "p2" "p1" 300 rosterH
    (by decide) (Or.inr (by decide))
